import Mathlib

/-!
Shallow embedding of the upload engine of this repository
(modules/retry_utils.py, modules/upload_manager.py, modules/plugin_manager.py,
modules/thumbnail_cache.py, modules/upload_coordinator.py), together with
theorems settling the frozen claims about it.

Conventions: Python floats that only ever hold small dyadic values
(delays, modification times) are embedded as rationals; Python ints as Nat
or Int; exceptions as explicit error values threaded through `Except` or
`Option`.
-/

namespace UploadEngine

/-! ## modules/retry_utils.py -/

/-- Embeds `RetryConfig.__init__` (retry_utils.py): the four configuration
fields with their Python default values recorded in `RetryConfig.default`. -/
structure RetryConfig where
  max_attempts : Nat
  base_delay : ℚ
  max_delay : ℚ
  exponential_base : ℚ
deriving Repr, DecidableEq

/-- The configuration produced by `RetryConfig()` with no arguments:
`max_attempts=3, base_delay=1.0, max_delay=30.0, exponential_base=2.0`. -/
def RetryConfig.default : RetryConfig :=
  { max_attempts := 3, base_delay := 1, max_delay := 30, exponential_base := 2 }

/-- Python `min(a, b)` on two numbers: the first argument when `a <= b`. -/
def pyMin (a b : ℚ) : ℚ := if a ≤ b then a else b

/-- Embeds `RetryConfig.get_delay`: `min(base_delay * exponential_base ** (attempt - 1),
max_delay)`.  The exponent is an integer subtraction, as in Python (so attempt 0
would give a fractional power), hence `zpow`. -/
def RetryConfig.get_delay (c : RetryConfig) (attempt : Int) : ℚ :=
  pyMin (c.base_delay * c.exponential_base ^ (attempt - 1)) c.max_delay

/-- Embeds `RETRYABLE_STATUS_CODES` from retry_utils.py. -/
def RETRYABLE_STATUS_CODES : List Nat := [408, 429, 500, 502, 503, 504]

/-- Python `needle in hay` substring test on strings. -/
def strContains (hay needle : String) : Bool :=
  (List.range (hay.data.length + 1)).any
    (fun i => (hay.data.drop i).take needle.data.length == needle.data)

/-- Python `str.lower()`, embedded as per-character lowering. -/
def pyLower (s : String) : String := String.mk (s.data.map Char.toLower)

/-- The `retryable_keywords` list inside `is_retryable_error`. -/
def retryable_keywords : List String :=
  ["timeout", "connection", "network", "temporary", "unavailable", "refused", "reset"]

/-- The `non_retryable_keywords` list inside `is_non_retryable_error`. -/
def non_retryable_keywords : List String :=
  ["not found", "permission denied", "unauthorized", "forbidden",
   "invalid credentials", "authentication failed"]

/-- Embedding of a Python exception as the three observations the classifiers
in retry_utils.py make of it: whether `isinstance(error, RETRYABLE_EXCEPTIONS)`
holds, the HTTP status when the error is an `httpx.HTTPStatusError`
(`none` otherwise), and `str(error)`. -/
structure PyError where
  retryable_exc : Bool
  http_status : Option Nat
  msg : String
deriving Repr, DecidableEq

/-- Embeds `is_retryable_error`: retryable exception classes first, then —
only for `HTTPStatusError` — membership of the status in
`RETRYABLE_STATUS_CODES` (returned directly, with no keyword fallback), and
otherwise the lower-cased message keyword scan. -/
def is_retryable_error (e : PyError) : Bool :=
  if e.retryable_exc then true
  else
    match e.http_status with
    | some code => RETRYABLE_STATUS_CODES.contains code
    | none => retryable_keywords.any (fun k => strContains (pyLower e.msg) k)

/-- Embeds `is_non_retryable_error`: 401/403 first, then any other
non-retryable 4xx, then the lower-cased message keyword scan (which an
`HTTPStatusError` outside those ranges also falls through to). -/
def is_non_retryable_error (e : PyError) : Bool :=
  let auth : Bool :=
    match e.http_status with
    | some code => code == 401 || code == 403
    | none => false
  if auth then true
  else
    let client_err : Bool :=
      match e.http_status with
      | some code =>
        if 400 ≤ code ∧ code < 500 ∧ code ∉ RETRYABLE_STATUS_CODES then true else false
      | none => false
    if client_err then true
    else non_retryable_keywords.any (fun k => strContains (pyLower e.msg) k)

/-- Result of one invocation of the wrapped function: a return value or a
raised exception. -/
inductive Outcome (α : Type) where
  | ok (a : α)
  | err (e : PyError)

/-- Observable trace of one run of the wrapper produced by
`retry_on_network_error`: the final result (`none` only in the degenerate
`max_attempts = 0` case, where the loop body never runs), the attempt numbers
at which the wrapped function was invoked, and the `time.sleep` delays
performed between attempts. -/
structure RetryTrace (α : Type) where
  result : Option (Except PyError α)
  calls : List Nat
  waits : List ℚ

/-- Embeds the `for attempt in range(1, config.max_attempts + 1)` loop of the
wrapper in `retry_on_network_error`.  `attempt` is the current attempt number
and `remaining` the number of attempts still allowed (initially
`max_attempts`); `f n` is the outcome of invoking the wrapped function on
attempt `n`.  On an exception the wrapper re-raises immediately when
`is_non_retryable_error` holds or when `is_retryable_error` fails; otherwise
it sleeps `get_delay attempt` and retries while `attempt < max_attempts`,
and after the final attempt raises the last exception. -/
def retryGo {α : Type} (cfg : RetryConfig) (f : Nat → Outcome α) :
    Nat → Nat → RetryTrace α
  | _, 0 => { result := none, calls := [], waits := [] }
  | attempt, r + 1 =>
    match f attempt with
    | .ok a => { result := some (.ok a), calls := [attempt], waits := [] }
    | .err e =>
      if is_non_retryable_error e then
        { result := some (.error e), calls := [attempt], waits := [] }
      else if is_retryable_error e = false then
        { result := some (.error e), calls := [attempt], waits := [] }
      else
        match r with
        | 0 => { result := some (.error e), calls := [attempt], waits := [] }
        | r' + 1 =>
          let rest := retryGo cfg f (attempt + 1) (r' + 1)
          { result := rest.result,
            calls := attempt :: rest.calls,
            waits := cfg.get_delay (attempt : Int) :: rest.waits }

/-- Embeds a call of a function wrapped by `retry_on_network_error cfg`:
run the attempt loop starting at attempt 1 with `max_attempts` attempts
allowed. -/
def retry_on_network_error {α : Type} (cfg : RetryConfig) (f : Nat → Outcome α) :
    RetryTrace α :=
  retryGo cfg f 1 cfg.max_attempts

/-- Embeds the control flow of `UploadManager._upload_task` around the retry
wrapper, as far as cancellation is observable: `cancel n` is the state of the
shared `cancel_event` as it would be observed right before attempt `n` begins
(`cancel 0` is its state when the task starts).  The source checks the flag
once, at task start (`if self.cancel_event.is_set(): return`); the retry loop
it then enters (`retry_on_network_error`) contains no check of the flag, so
the attempt trace is produced without consulting `cancel` further. -/
def uploadTaskCalls {α : Type} (cancel : Nat → Bool) (cfg : RetryConfig)
    (f : Nat → Outcome α) : List Nat :=
  if cancel 0 then [] else (retry_on_network_error cfg f).calls

/-! ## modules/plugin_manager.py -/

/-- Embedding of one top-level `ImageHostPlugin` subclass of a plugin module,
reduced to the attributes `PluginManager` inspects: the `name` and `version`
identity fields (Python falsiness of the empty string models the
`if not plugin_class.name` checks) and whether each required method is still
abstract (`__isabstractmethod__`).  The `getattr(...) is None` branch of
`_validate_plugin_class` is unreachable for subclasses of the abstract base,
which always supplies both attributes, and is not modelled. -/
structure PluginClass where
  name : String
  version : String
  author : String
  upload_is_abstract : Bool
  validate_credentials_is_abstract : Bool
deriving Repr, DecidableEq

/-- Embeds `PluginManager._find_plugin_class`.  A module is embedded as the
list of its top-level `ImageHostPlugin` subclasses in the order
`inspect.getmembers` yields them (alphabetical by class name); the source
returns the first such class and ignores any others. -/
def find_plugin_class (mod : List PluginClass) : Option PluginClass :=
  mod.head?

/-- Embeds `PluginManager._validate_plugin_class`: `some message` when the
method raises `PluginLoadError`, `none` when validation passes.  The checks
run in source order: empty name, empty version, then each of the required
methods `upload` and `validate_credentials` still being abstract. -/
def validate_plugin_class (c : PluginClass) : Option String :=
  if c.name = "" then some "missing required name attribute"
  else if c.version = "" then some "missing required version attribute"
  else if c.upload_is_abstract then some "abstract method upload not implemented"
  else if c.validate_credentials_is_abstract then
    some "abstract method validate_credentials not implemented"
  else none

/-- Embeds `PluginManager._load_plugin_file`: `.ok none` when no
`ImageHostPlugin` subclass is found (a logged warning, not an error),
`.error msg` when validation raises `PluginLoadError`, and `.ok (some c)` for
a validated class. -/
def load_plugin_file (mod : List PluginClass) : Except String (Option PluginClass) :=
  match find_plugin_class mod with
  | none => .ok none
  | some c =>
    match validate_plugin_class c with
    | some e => .error e
    | none => .ok (some c)

/-- Embeds `PluginManager._register_plugin` on the `self.plugins` dict:
assignment `self.plugins[name] = cls` updates an existing key in place
(keeping its position, with a logged name-conflict warning) or appends a new
one. -/
def registerPlugin (reg : List (String × PluginClass)) (c : PluginClass) :
    List (String × PluginClass) :=
  if reg.any (fun p => p.1 = c.name) then
    reg.map (fun p => if p.1 = c.name then (c.name, c) else p)
  else reg ++ [(c.name, c)]

/-- Embeds one iteration of the discovery loop of
`PluginManager.load_all_plugins`: the file is loaded and, when a class is
returned, registered; a file with no plugin class is skipped (logged
warning), and an exception (`PluginLoadError` included) is caught, logged
and skipped, so discovery always continues with the remaining files. -/
def discoveryStep (reg : List (String × PluginClass)) (mod : List PluginClass) :
    List (String × PluginClass) :=
  match load_plugin_file mod with
  | .ok (some c) => registerPlugin reg c
  | .ok none => reg
  | .error _ => reg

/-- Embeds `PluginManager.load_all_plugins` over the plugin files found in
the plugin directory, starting from an empty registry. -/
def load_all_plugins (files : List (List PluginClass)) : List (String × PluginClass) :=
  files.foldl discoveryStep []

/-- Embeds `PluginManager.get_plugin_names`: the keys of the registry. -/
def get_plugin_names (reg : List (String × PluginClass)) : List String :=
  reg.map Prod.fst

/-! ## modules/thumbnail_cache.py

The memory tier is a Python `OrderedDict`, embedded as an association list
whose front is the oldest (least recently used) entry and whose back is the
newest.  File modification times are embedded as rationals and the
filesystem as a map from path to current mtime, supplied per call since it
can change between calls. -/

/-- Embeds `ThumbnailCache._get_cache_key`.  The source hashes the string
`f"\x7bfile_path\x7d:\x7bmtime\x7d"` with truncated SHA-256 purely to shorten
keys; the embedding keeps the digest input itself, treating the digest as
injective on its inputs. -/
def get_cache_key (file_path : String) (mtime : ℚ) : String × ℚ :=
  (file_path, mtime)

/-- First value bound to key `k` in an association list (dict lookup). -/
def lookupKey {α : Type} (k : String × ℚ) : List ((String × ℚ) × α) → Option α
  | [] => none
  | p :: rest => if p.1 = k then some p.2 else lookupKey k rest

/-- Removal of key `k` from an association list (`del d[k]`). -/
def eraseKey {α : Type} (k : String × ℚ) : List ((String × ℚ) × α) →
    List ((String × ℚ) × α)
  | [] => []
  | p :: rest => if p.1 = k then eraseKey k rest else p :: eraseKey k rest

/-- Python dict assignment `d[k] = v`: update an existing key in place, or
append a new one at the end. -/
def odAssign {α : Type} (k : String × ℚ) (v : α) (l : List ((String × ℚ) × α)) :
    List ((String × ℚ) × α) :=
  match lookupKey k l with
  | some _ => l.map (fun p => if p.1 = k then (k, v) else p)
  | none => l ++ [(k, v)]

/-- Python `OrderedDict.move_to_end(k)`: move the entry for `k` to the back
(most recently used position). -/
def move_to_end {α : Type} (k : String × ℚ) (l : List ((String × ℚ) × α)) :
    List ((String × ℚ) × α) :=
  match lookupKey k l with
  | none => l
  | some v => eraseKey k l ++ [(k, v)]

/-- Embeds the `while len(...) > max_memory_items: popitem(last=False)` loop
of `_store_in_memory`: drop entries from the front (oldest first) while the
size exceeds the bound. -/
def evictLoop {α : Type} (maxItems : Nat) :
    List ((String × ℚ) × α) → List ((String × ℚ) × α)
  | [] => []
  | x :: xs => if maxItems < (x :: xs).length then evictLoop maxItems xs else x :: xs

/-- Embeds the state of a `ThumbnailCache` instance: capacity, whether a disk
cache directory was configured, the memory tier (key to thumbnail and
recorded mtime), the disk tier (one file per key), and the cumulative
hit/miss counters. -/
structure ThumbnailCache (Img : Type) where
  max_memory_items : Nat
  disk_enabled : Bool
  memory_cache : List ((String × ℚ) × (Img × ℚ))
  disk_cache : List ((String × ℚ) × Img)
  hits : Nat
  misses : Nat

/-- Embeds `ThumbnailCache._store_in_memory`: dict assignment, then
`move_to_end`, then LRU eviction down to the capacity. -/
def ThumbnailCache.store_in_memory {Img : Type} (key : String × ℚ) (img : Img)
    (mtime : ℚ) (s : ThumbnailCache Img) : ThumbnailCache Img :=
  let mc := move_to_end key (odAssign key (img, mtime) s.memory_cache)
  { s with memory_cache := evictLoop s.max_memory_items mc }

/-- Embeds the disk-tier phase of `ThumbnailCache.get`, reached after the
memory tier missed (or was invalidated): on a disk hit the thumbnail is
promoted into memory via `_store_in_memory` and counted as a hit; otherwise
the call counts as a miss.  Disk entries are modelled as well formed; the
source's corrupted-pickle branch deletes the file and falls through to the
same miss outcome. -/
def ThumbnailCache.diskPhase {Img : Type} (s : ThumbnailCache Img)
    (key : String × ℚ) (mtime : ℚ) : Option Img × ThumbnailCache Img :=
  if s.disk_enabled then
    match lookupKey key s.disk_cache with
    | some img =>
      let s2 := ThumbnailCache.store_in_memory key img mtime s
      (some img, { s2 with hits := s2.hits + 1 })
    | none => (none, { s with misses := s.misses + 1 })
  else (none, { s with misses := s.misses + 1 })

/-- Embeds `ThumbnailCache.get`: key the lookup by the file's current mtime
`fs file_path`; on a memory hit whose recorded mtime matches, promote the
entry to most recently used and return it; on a recorded-mtime mismatch
delete the entry and fall through; otherwise consult the disk tier.
The `thumbnail_size` argument of the source is unused by its body and
omitted. -/
def ThumbnailCache.get {Img : Type} (fs : String → ℚ) (s : ThumbnailCache Img)
    (file_path : String) : Option Img × ThumbnailCache Img :=
  let mtime := fs file_path
  let key := get_cache_key file_path mtime
  match lookupKey key s.memory_cache with
  | some iv =>
    if iv.2 = mtime then
      (some iv.1,
       { s with memory_cache := move_to_end key s.memory_cache, hits := s.hits + 1 })
    else
      ThumbnailCache.diskPhase { s with memory_cache := eraseKey key s.memory_cache }
        key mtime
  | none => ThumbnailCache.diskPhase s key mtime

/-- Embeds `ThumbnailCache.put`: store under the key derived from the file's
current mtime, in memory and — when a disk directory is configured — on
disk. -/
def ThumbnailCache.put {Img : Type} (fs : String → ℚ) (s : ThumbnailCache Img)
    (file_path : String) (img : Img) : ThumbnailCache Img :=
  let mtime := fs file_path
  let key := get_cache_key file_path mtime
  let s1 := ThumbnailCache.store_in_memory key img mtime s
  if s1.disk_enabled then { s1 with disk_cache := odAssign key img s1.disk_cache }
  else s1

/-- One public cache operation, carrying the filesystem view (path to current
mtime) in effect when it runs, since files may be modified between
operations. -/
inductive CacheOp (Img : Type) where
  | get (fs : String → ℚ) (file_path : String)
  | put (fs : String → ℚ) (file_path : String) (img : Img)

/-- State reached after one cache operation. -/
def applyOp {Img : Type} (s : ThumbnailCache Img) : CacheOp Img → ThumbnailCache Img
  | .get fs p => (ThumbnailCache.get fs s p).2
  | .put fs p img => ThumbnailCache.put fs s p img

/-- State reached after a sequence of cache operations. -/
def applyOps {Img : Type} (s : ThumbnailCache Img) (ops : List (CacheOp Img)) :
    ThumbnailCache Img :=
  ops.foldl applyOp s

/-! ## modules/upload_coordinator.py -/

/-- Embeds the state `UploadCoordinator.start_upload` touches: the
uploading flag and counters, the history session (`current_session_id` set by
`upload_history.start_session`), the shared cancel flag, the result list and
output buffers it clears, the per-file state dict
(`state.files.file_widgets[fp]["state"]`, embedded as a total map), and a
count of `on_upload_start` callback emissions. -/
structure UploadCoordinator where
  is_uploading : Bool
  upload_total : Nat
  upload_count : Nat
  current_session_id : Option String
  history_open : Bool
  cancel_flag : Bool
  results : List (String × String × String)
  pix_galleries_to_finalize : List String
  clipboard_buffer : List String
  current_output_files : List String
  file_states : String → String
  start_events : Nat

/-- Embeds the `for files in pending.values(): for fp in files:` state loop
of `start_upload`, assigning state `"queued"` to each selected file. -/
def setQueued (fs : String → String) (files : List String) : String → String :=
  files.foldl (fun g fp => fun p => if p = fp then "queued" else g p) fs

/-- Embeds `UploadCoordinator.start_upload`.  `pending` is the
pending-by-group map as an ordered list of (group, files) pairs; `sid` is the
timestamp session id `upload_history.start_session` returns.  An empty map
returns `False` with no state change; otherwise the cancel flag, results and
buffers are reset, the counters set, a history session opened, every selected
file marked `"queued"`, the batch-start callback emitted once, and `True`
returned.  (The final hand-off to `upload_manager.start_batch` spawns the
engine thread and mutates no coordinator state.) -/
def start_upload (s : UploadCoordinator) (pending : List (String × List String))
    (sid : String) : Bool × UploadCoordinator :=
  if pending = [] then (false, s)
  else
    (true,
      { s with
        cancel_flag := false,
        results := [],
        pix_galleries_to_finalize := [],
        clipboard_buffer := [],
        current_output_files := [],
        upload_total := (pending.map (fun g => g.2.length)).sum,
        upload_count := 0,
        is_uploading := true,
        current_session_id := some sid,
        history_open := true,
        file_states := setQueued s.file_states (pending.map Prod.snd).flatten,
        start_events := s.start_events + 1 })

/-! ## Concrete sample values used by witnesses and counterexamples -/

/-- An unclassified exception: not a retryable exception class, not an
`HTTPStatusError`, and its message matches no keyword of either list
(e.g. `ValueError("boom")`). -/
def eBoom : PyError := { retryable_exc := false, http_status := none, msg := "boom" }

/-- A transient network error: an exception class in `RETRYABLE_EXCEPTIONS`
(e.g. `ConnectionError`). -/
def eReset : PyError :=
  { retryable_exc := true, http_status := none, msg := "connection reset" }

/-- A second transient network error, distinguishable from `eReset`. -/
def eTimeout : PyError :=
  { retryable_exc := true, http_status := none, msg := "read timeout" }

/-- A third transient network error, distinguishable from the other two. -/
def eRefused : PyError :=
  { retryable_exc := true, http_status := none, msg := "connection refused" }

/-- The retry configuration `UploadManager._upload_task` constructs:
`RetryConfig(max_attempts=retry_count, base_delay=2.0, max_delay=30.0,
exponential_base=2.0)` with the default `network.retry_count = 3`. -/
def cfg2330 : RetryConfig :=
  { max_attempts := 3, base_delay := 2, max_delay := 30, exponential_base := 2 }

/-- A cancel-flag schedule set during the first backoff sleep: the flag is
observed clear at task start and at attempt 1, and set from attempt 2 on. -/
def cancelDuringFirstSleep (n : Nat) : Bool := decide (2 ≤ n)

/-- A cancel-flag schedule that is never set. -/
def cancelNever (_ : Nat) : Bool := false

/-- A valid plugin class named Alpha. -/
def cAlpha : PluginClass :=
  { name := "Alpha", version := "1.0", author := "a",
    upload_is_abstract := false, validate_credentials_is_abstract := false }

/-- A valid plugin class named Beta. -/
def cBeta : PluginClass :=
  { name := "Beta", version := "1.0", author := "b",
    upload_is_abstract := false, validate_credentials_is_abstract := false }

/-- A plugin class whose required method `upload` is still abstract. -/
def cNoUpload : PluginClass :=
  { name := "Broken", version := "1.0", author := "c",
    upload_is_abstract := true, validate_credentials_is_abstract := false }

/-- A memory-only cache at capacity 2 holding two entries, the entry for
file a (older) and the entry for file b (newer), both recorded at mtime 1. -/
def sampleCache : ThumbnailCache Nat :=
  { max_memory_items := 2, disk_enabled := false,
    memory_cache := [(("a", 1), (10, 1)), (("b", 1), (11, 1))],
    disk_cache := [], hits := 0, misses := 0 }

/-- An empty memory-only cache with capacity 5. -/
def emptyCache : ThumbnailCache Nat :=
  { max_memory_items := 5, disk_enabled := false,
    memory_cache := [], disk_cache := [], hits := 0, misses := 0 }

/-- An empty cache with capacity 1, used to exercise eviction sequences. -/
def tinyCache : ThumbnailCache Nat :=
  { max_memory_items := 1, disk_enabled := false,
    memory_cache := [], disk_cache := [], hits := 0, misses := 0 }

/-- A filesystem view where every file currently has mtime 1. -/
def fsOne (_ : String) : ℚ := 1

/-- A filesystem view where every file currently has mtime 2. -/
def fsTwo (_ : String) : ℚ := 2

/-- A short operation sequence exercising eviction on `tinyCache`. -/
def demoOps : List (CacheOp Nat) :=
  [CacheOp.put fsOne "a" 10, CacheOp.put fsOne "b" 11, CacheOp.get fsOne "a"]

/-- A coordinator in its initial state, before any batch. -/
def coordInit : UploadCoordinator :=
  { is_uploading := false, upload_total := 0, upload_count := 0,
    current_session_id := none, history_open := false, cancel_flag := false,
    results := [], pix_galleries_to_finalize := [], clipboard_buffer := [],
    current_output_files := [], file_states := fun _ => "pending",
    start_events := 0 }

/-- An attempt schedule raising a distinct transient network error on each
of three attempts. -/
def transientSchedule (n : Nat) : Outcome Unit :=
  if n = 1 then .err eReset else if n = 2 then .err eTimeout else .err eRefused

/-! ## Claim C1 -/

/-- C1 (counterexample): a `RetryConfig` constructed with no arguments has
`base_delay = 1.0` second, not the 2 seconds the claim states. -/
theorem C1_counterexample : ¬ (RetryConfig.default.base_delay = 2) := by
  norm_num [RetryConfig.default]

/-- C1 (amended): for every attempt number n ≥ 1 and every configuration
whose exponential base is 2 (the default), `RetryConfig.get_delay n` returns
`min(base_delay * 2^(n-1), max_delay)`; and a `RetryConfig` constructed with
no arguments has `base_delay = 1` second (not 2), `max_delay = 30` seconds,
and `max_attempts = 3`. -/
theorem C1_get_delay_formula_and_defaults (c : RetryConfig) (n : Int)
    (hexp : c.exponential_base = 2) (hn : 1 ≤ n) :
    c.get_delay n = min (c.base_delay * 2 ^ (n - 1)) c.max_delay ∧
    RetryConfig.default.base_delay = 1 ∧
    RetryConfig.default.max_delay = 30 ∧
    RetryConfig.default.max_attempts = 3 := by
  refine ⟨?_, rfl, rfl, rfl⟩
  simp only [RetryConfig.get_delay, pyMin, hexp, min_def]

/-- Witness for C1 at the default configuration and attempt 3. -/
theorem C1_witness :
    RetryConfig.default.exponential_base = 2 ∧ (1 : Int) ≤ 3 ∧
    (RetryConfig.default.get_delay 3
        = min (RetryConfig.default.base_delay * 2 ^ ((3 : Int) - 1))
            RetryConfig.default.max_delay ∧
      RetryConfig.default.base_delay = 1 ∧
      RetryConfig.default.max_delay = 30 ∧
      RetryConfig.default.max_attempts = 3) :=
  ⟨rfl, by decide,
    C1_get_delay_formula_and_defaults RetryConfig.default 3 rfl (by decide)⟩

/-! ## Claim C2 -/

/-- C2 (counterexample): `ValueError("boom")` is classified neither
non-retryable nor retryable, yet a wrapped function raising it on every
attempt is invoked exactly once under the default 3-attempt configuration:
it is not retried up to `max_attempts`. -/
theorem C2_counterexample :
    is_non_retryable_error eBoom = false ∧ is_retryable_error eBoom = false ∧
    ¬ ((retry_on_network_error (α := Unit) RetryConfig.default
        (fun _ => Outcome.err eBoom)).calls.length
      = RetryConfig.default.max_attempts) :=
  ⟨by decide, by decide, by decide⟩

/-- C2 (amended): an exception classified neither non-retryable nor
retryable is re-raised immediately by a function wrapped by
`retry_on_network_error`: the wrapped function is invoked exactly once (on
attempt 1) and the wrapper raises that same exception, under every
configuration allowing at least one attempt. -/
theorem C2_unclassified_raises_immediately {α : Type} (cfg : RetryConfig)
    (e : PyError) (f : Nat → Outcome α)
    (h1 : is_non_retryable_error e = false) (h2 : is_retryable_error e = false)
    (hf : f 1 = Outcome.err e) (hm : 1 ≤ cfg.max_attempts) :
    (retry_on_network_error cfg f).calls = [1] ∧
    (retry_on_network_error cfg f).result = some (Except.error e) := by
  obtain ⟨r, hr⟩ : ∃ r, cfg.max_attempts = r + 1 :=
    ⟨cfg.max_attempts - 1, by omega⟩
  unfold retry_on_network_error
  rw [hr]
  unfold retryGo
  rw [hf]
  simp [h1, h2]

/-- Witness for C2 at the unclassified error `eBoom` and the default
configuration. -/
theorem C2_witness :
    is_non_retryable_error eBoom = false ∧ is_retryable_error eBoom = false ∧
    (fun _ : Nat => Outcome.err (α := Unit) eBoom) 1 = Outcome.err eBoom ∧
    1 ≤ RetryConfig.default.max_attempts ∧
    ((retry_on_network_error (α := Unit) RetryConfig.default
        (fun _ => Outcome.err eBoom)).calls = [1] ∧
      (retry_on_network_error (α := Unit) RetryConfig.default
        (fun _ => Outcome.err eBoom)).result = some (Except.error eBoom)) :=
  ⟨by decide, by decide, rfl, by decide,
    C2_unclassified_raises_immediately RetryConfig.default eBoom _
      (by decide) (by decide) rfl (by decide)⟩

/-! ## Claim C3 -/

/-- C3 (counterexample): with base 2s, max 30s and 3 attempts all raising a
transient network error, the wrapper performs two waits, so the wait
sequence is not 2s, 4s, 8s. -/
theorem C3_counterexample :
    ¬ ((retry_on_network_error (α := Unit) cfg2330
        (fun _ => Outcome.err eReset)).waits = [2, 4, 8]) := by
  intro h
  have h2 : (retry_on_network_error (α := Unit) cfg2330
      (fun _ => Outcome.err eReset)).waits.length = 2 := rfl
  rw [h] at h2
  simp at h2

/-- C3 (amended): for a call wrapped by `retry_on_network_error` configured
with base delay 2s, max delay 30s and 3 attempts, where every attempt raises
a retryable transient network error, the waits between attempts form the
sequence 2s, 4s (three attempts leave two gaps), and the wrapper then raises
the last error. -/
theorem C3_backoff_waits_and_last_error {α : Type} (f : Nat → Outcome α)
    (e1 e2 e3 : PyError)
    (hf1 : f 1 = Outcome.err e1) (hf2 : f 2 = Outcome.err e2)
    (hf3 : f 3 = Outcome.err e3)
    (hr1 : is_retryable_error e1 = true) (hn1 : is_non_retryable_error e1 = false)
    (hr2 : is_retryable_error e2 = true) (hn2 : is_non_retryable_error e2 = false)
    (hr3 : is_retryable_error e3 = true) (hn3 : is_non_retryable_error e3 = false) :
    (retry_on_network_error cfg2330 f).waits = [2, 4] ∧
    (retry_on_network_error cfg2330 f).result = some (Except.error e3) := by
  unfold retry_on_network_error
  rw [show cfg2330.max_attempts = 3 from rfl]
  simp only [retryGo, hf1, hf2, hf3, hr1, hn1, hr2, hn2, hr3, hn3,
    Bool.false_eq_true, if_false, Bool.true_eq_false]
  refine ⟨?_, trivial⟩
  norm_num [RetryConfig.get_delay, cfg2330, pyMin]

/-- Witness for C3 at a schedule of three distinct transient errors. -/
theorem C3_witness :
    transientSchedule 1 = Outcome.err eReset ∧
    transientSchedule 2 = Outcome.err eTimeout ∧
    transientSchedule 3 = Outcome.err eRefused ∧
    is_retryable_error eReset = true ∧ is_non_retryable_error eReset = false ∧
    is_retryable_error eTimeout = true ∧ is_non_retryable_error eTimeout = false ∧
    is_retryable_error eRefused = true ∧ is_non_retryable_error eRefused = false ∧
    ((retry_on_network_error cfg2330 transientSchedule).waits = [2, 4] ∧
      (retry_on_network_error cfg2330 transientSchedule).result
        = some (Except.error eRefused)) :=
  ⟨rfl, rfl, rfl, by decide, by decide, by decide, by decide, by decide, by decide,
    C3_backoff_waits_and_last_error transientSchedule eReset eTimeout eRefused
      rfl rfl rfl (by decide) (by decide) (by decide) (by decide) (by decide)
      (by decide)⟩

/-! ## Claim C4 -/

/-- C4 (counterexample): with the cancel flag set during the first backoff
sleep (so it is observed set at the top of attempt 2), attempt 2 still
begins: the retry loop starts new attempts without checking the flag. -/
theorem C4_counterexample :
    cancelDuringFirstSleep 2 = true ∧
    2 ∈ uploadTaskCalls (α := Unit) cancelDuringFirstSleep RetryConfig.default
        (fun _ => Outcome.err eReset) :=
  ⟨rfl, by decide⟩

/-- C4 (amended): cancellation is checked before each task starts — a task
that begins with the shared flag set performs no upload attempt — but not at
the top of retry attempts: the attempt trace of a task depends only on the
flag value observed at task start, so attempts begun after the flag is set
proceed regardless. -/
theorem C4_cancel_checked_only_at_task_start {α : Type}
    (cancel cancel2 : Nat → Bool) (cfg : RetryConfig) (f : Nat → Outcome α)
    (hsame : cancel2 0 = cancel 0) :
    (cancel 0 = true → uploadTaskCalls cancel cfg f = []) ∧
    uploadTaskCalls cancel2 cfg f = uploadTaskCalls cancel cfg f := by
  constructor
  · intro h
    simp [uploadTaskCalls, h]
  · simp [uploadTaskCalls, hsame]

/-- Witness for C4: a never-set schedule and one set during the first sleep
agree at task start, and the theorem applies to them. -/
theorem C4_witness :
    cancelNever 0 = cancelDuringFirstSleep 0 ∧
    ((cancelDuringFirstSleep 0 = true →
        uploadTaskCalls (α := Unit) cancelDuringFirstSleep RetryConfig.default
          (fun _ => Outcome.err eReset) = []) ∧
      uploadTaskCalls (α := Unit) cancelNever RetryConfig.default
          (fun _ => Outcome.err eReset)
        = uploadTaskCalls (α := Unit) cancelDuringFirstSleep RetryConfig.default
          (fun _ => Outcome.err eReset)) :=
  ⟨by decide,
    C4_cancel_checked_only_at_task_start cancelDuringFirstSleep cancelNever
      RetryConfig.default (fun _ => Outcome.err eReset) (by decide)⟩

/-! ## Claim C5 -/

/-- C5 (counterexample): a plugin file containing two top-level Back-end
Contract implementations is not rejected: discovering that single file
registers a class, so the registry is not empty as the claim would have it. -/
theorem C5_counterexample :
    ¬ (get_plugin_names (load_all_plugins [[cAlpha, cBeta]]) = []) := by decide

/-- C5 (amended): a plugin file with zero top-level `ImageHostPlugin`
implementations is rejected with a logged warning — registering none of its
classes — and discovery of the remaining files continues (not fatal); a file
with multiple top-level implementations, however, is not rejected:
`_find_plugin_class` returns the first implementation in member-iteration
order, which is then validated and registered, and the rest are ignored. -/
theorem C5_zero_skipped_multiple_takes_first (files : List (List PluginClass))
    (c : PluginClass) (cs : List PluginClass) :
    load_all_plugins ([] :: files) = load_all_plugins files ∧
    find_plugin_class (c :: cs) = some c :=
  ⟨rfl, rfl⟩

/-! ## Claim C6 -/

/-- Validation of a plugin class whose required method `upload` is still
abstract raises `PluginLoadError`, whatever its other fields. -/
theorem validate_fails_of_abstract_upload (c : PluginClass)
    (h : c.upload_is_abstract = true) :
    (validate_plugin_class c).isSome = true := by
  by_cases h1 : c.name = "" <;> by_cases h2 : c.version = "" <;>
    simp [validate_plugin_class, h1, h2, h]

/-- C6: a candidate plugin whose required method `upload` is unimplemented
(still abstract) is excluded from the registry — the discovery run produces
the same registry as if its file were absent, and a run over its file alone
registers nothing — while every valid sibling file is still loaded and
registered. -/
theorem C6_abstract_upload_excluded (pre post : List (List PluginClass))
    (bad : List PluginClass) (c : PluginClass)
    (hfind : find_plugin_class bad = some c)
    (habs : c.upload_is_abstract = true) :
    load_all_plugins (pre ++ bad :: post) = load_all_plugins (pre ++ post) ∧
    get_plugin_names (load_all_plugins [bad]) = [] := by
  have hv : (validate_plugin_class c).isSome = true :=
    validate_fails_of_abstract_upload c habs
  obtain ⟨msg, hmsg⟩ := Option.isSome_iff_exists.mp hv
  have hload : load_plugin_file bad = .error msg := by
    simp [load_plugin_file, hfind, hmsg]
  have hstep : ∀ reg, discoveryStep reg bad = reg := by
    intro reg
    simp [discoveryStep, hload]
  constructor
  · unfold load_all_plugins
    rw [List.foldl_append, List.foldl_cons, hstep, ← List.foldl_append]
  · unfold load_all_plugins
    rw [List.foldl_cons, hstep]
    rfl

/-- Witness for C6: the abstract-upload candidate `cNoUpload` between two
valid siblings. -/
theorem C6_witness :
    find_plugin_class [cNoUpload] = some cNoUpload ∧
    cNoUpload.upload_is_abstract = true ∧
    (load_all_plugins [[cAlpha], [cNoUpload], [cBeta]]
        = load_all_plugins [[cAlpha], [cBeta]] ∧
      get_plugin_names (load_all_plugins [[cNoUpload]]) = []) :=
  ⟨rfl, rfl,
    C6_abstract_upload_excluded [[cAlpha]] [[cBeta]] [cNoUpload] cNoUpload
      rfl rfl⟩

/-! ## Association-list, ordering and eviction lemmas for the cache -/

/-- Splitting a lookup across an append. -/
theorem lookupKey_append {α : Type} (k : String × ℚ)
    (l1 l2 : List ((String × ℚ) × α)) :
    lookupKey k (l1 ++ l2)
      = match lookupKey k l1 with
        | some v => some v
        | none => lookupKey k l2 := by
  induction l1 with
  | nil => simp [lookupKey]
  | cons x xs ih =>
    rw [List.cons_append, lookupKey, lookupKey]
    by_cases hx : x.1 = k
    · simp [hx]
    · simp [hx, ih]

/-- Erasing an absent key changes nothing. -/
theorem eraseKey_of_lookup_none {α : Type} (k : String × ℚ)
    (l : List ((String × ℚ) × α)) (h : lookupKey k l = none) :
    eraseKey k l = l := by
  induction l with
  | nil => rfl
  | cons x xs ih =>
    rw [lookupKey] at h
    by_cases hx : x.1 = k
    · simp [hx] at h
    · rw [if_neg hx] at h
      rw [eraseKey, if_neg hx, ih h]

/-- Absence survives erasure. -/
theorem lookupKey_none_eraseKey {α : Type} (k k2 : String × ℚ)
    (l : List ((String × ℚ) × α)) (h : lookupKey k2 l = none) :
    lookupKey k2 (eraseKey k l) = none := by
  induction l with
  | nil => rfl
  | cons x xs ih =>
    rw [lookupKey] at h
    by_cases hx : x.1 = k2
    · simp [hx] at h
    · rw [if_neg hx] at h
      rw [eraseKey]
      by_cases hk : x.1 = k
      · rw [if_pos hk]
        exact ih h
      · rw [if_neg hk, lookupKey, if_neg hx]
        exact ih h

/-- Absence of a different key survives in-place update of key `k`. -/
theorem lookupKey_none_mapAssign {α : Type} (k k2 : String × ℚ) (v : α)
    (l : List ((String × ℚ) × α)) (hne : k2 ≠ k) (h : lookupKey k2 l = none) :
    lookupKey k2 (l.map (fun p => if p.1 = k then (k, v) else p)) = none := by
  have hne2 : ¬ ((k, v).1 = k2) := fun h2 => hne (Eq.symm h2)
  induction l with
  | nil => rfl
  | cons x xs ih =>
    rw [lookupKey] at h
    by_cases hx : x.1 = k2
    · simp [hx] at h
    · rw [if_neg hx] at h
      rw [List.map_cons, lookupKey]
      by_cases hxk : x.1 = k
      · rw [if_pos hxk, if_neg hne2]
        exact ih h
      · rw [if_neg hxk, if_neg hx]
        exact ih h

/-- Absence of a different key survives dict assignment of key `k`. -/
theorem lookupKey_none_odAssign {α : Type} (k k2 : String × ℚ) (v : α)
    (l : List ((String × ℚ) × α)) (hne : k2 ≠ k) (h : lookupKey k2 l = none) :
    lookupKey k2 (odAssign k v l) = none := by
  have hne2 : ¬ (k = k2) := fun h2 => hne (Eq.symm h2)
  rw [odAssign]
  cases hk : lookupKey k l with
  | some w => exact lookupKey_none_mapAssign k k2 v l hne h
  | none =>
    rw [lookupKey_append k2 l [(k, v)], h]
    simp [lookupKey, hne2]

/-- Absence of a different key survives `move_to_end k`. -/
theorem lookupKey_none_move_to_end {α : Type} (k k2 : String × ℚ)
    (l : List ((String × ℚ) × α)) (hne : k2 ≠ k) (h : lookupKey k2 l = none) :
    lookupKey k2 (move_to_end k l) = none := by
  have hne2 : ¬ (k = k2) := fun h2 => hne (Eq.symm h2)
  rw [move_to_end]
  cases hk : lookupKey k l with
  | none => exact h
  | some w =>
    rw [lookupKey_append, lookupKey_none_eraseKey k k2 l h]
    simp [lookupKey, hne2]

/-- Absence survives eviction. -/
theorem lookupKey_none_evictLoop {α : Type} (m : Nat) (k : String × ℚ)
    (l : List ((String × ℚ) × α)) (h : lookupKey k l = none) :
    lookupKey k (evictLoop m l) = none := by
  induction l with
  | nil => exact h
  | cons x xs ih =>
    rw [lookupKey] at h
    by_cases hx : x.1 = k
    · simp [hx] at h
    · rw [if_neg hx] at h
      rw [evictLoop]
      by_cases hm : m < (x :: xs).length
      · rw [if_pos hm]
        exact ih h
      · rw [if_neg hm, lookupKey, if_neg hx]
        exact h

/-- The eviction loop always leaves at most `m` entries. -/
theorem evictLoop_length_le {α : Type} (m : Nat)
    (l : List ((String × ℚ) × α)) : (evictLoop m l).length ≤ m := by
  induction l with
  | nil => simp [evictLoop]
  | cons x xs ih =>
    rw [evictLoop]
    by_cases hm : m < (x :: xs).length
    · rw [if_pos hm]
      exact ih
    · rw [if_neg hm]
      omega

/-- The eviction loop does nothing within capacity. -/
theorem evictLoop_of_length_le {α : Type} (m : Nat)
    (l : List ((String × ℚ) × α)) (h : l.length ≤ m) : evictLoop m l = l := by
  cases l with
  | nil => rfl
  | cons x xs =>
    rw [evictLoop, if_neg (by omega)]

/-- The eviction loop drops exactly the front entry when one over capacity. -/
theorem evictLoop_of_length_succ {α : Type} (m : Nat)
    (l : List ((String × ℚ) × α)) (h : l.length = m + 1) :
    evictLoop m l = l.tail := by
  cases l with
  | nil => simp at h
  | cons x xs =>
    rw [evictLoop, if_pos (by omega)]
    simp only [List.length_cons] at h
    rw [evictLoop_of_length_le m xs (by omega)]
    rfl

/-- Erasure never grows the list. -/
theorem eraseKey_length_le {α : Type} (k : String × ℚ)
    (l : List ((String × ℚ) × α)) : (eraseKey k l).length ≤ l.length := by
  induction l with
  | nil => exact Nat.le_refl _
  | cons x xs ih =>
    rw [eraseKey]
    by_cases hx : x.1 = k
    · rw [if_pos hx]
      simp only [List.length_cons]
      omega
    · rw [if_neg hx]
      simp only [List.length_cons]
      omega

/-- Erasing a present key strictly shrinks the list. -/
theorem eraseKey_length_lt {α : Type} (k : String × ℚ) (v : α)
    (l : List ((String × ℚ) × α)) (h : lookupKey k l = some v) :
    (eraseKey k l).length < l.length := by
  induction l with
  | nil => simp [lookupKey] at h
  | cons x xs ih =>
    rw [lookupKey] at h
    rw [eraseKey]
    by_cases hx : x.1 = k
    · rw [if_pos hx]
      have := eraseKey_length_le k xs
      simp only [List.length_cons]
      omega
    · rw [if_neg hx] at h
      rw [if_neg hx]
      have := ih h
      simp only [List.length_cons]
      omega

/-- Moving an entry to the back never grows the list. -/
theorem move_to_end_length_le {α : Type} (k : String × ℚ)
    (l : List ((String × ℚ) × α)) : (move_to_end k l).length ≤ l.length := by
  rw [move_to_end]
  cases hk : lookupKey k l with
  | none => exact Nat.le_refl _
  | some w =>
    rw [List.length_append]
    have := eraseKey_length_lt k w l hk
    simp only [List.length_cons, List.length_nil]
    omega

/-- Erasure distributes over append. -/
theorem eraseKey_append {α : Type} (k : String × ℚ)
    (l1 l2 : List ((String × ℚ) × α)) :
    eraseKey k (l1 ++ l2) = eraseKey k l1 ++ eraseKey k l2 := by
  induction l1 with
  | nil => rfl
  | cons x xs ih =>
    rw [List.cons_append, eraseKey, eraseKey]
    by_cases hx : x.1 = k
    · rw [if_pos hx, if_pos hx, ih]
    · rw [if_neg hx, if_neg hx, List.cons_append, ih]

/-- A put changes the memory tier exactly as `_store_in_memory` does; the
disk branch touches only the disk tier. -/
theorem put_memory_cache {Img : Type} (fs : String → ℚ) (s : ThumbnailCache Img)
    (path : String) (img : Img) :
    (ThumbnailCache.put fs s path img).memory_cache
      = (ThumbnailCache.store_in_memory (get_cache_key path (fs path)) img
          (fs path) s).memory_cache := by
  rw [ThumbnailCache.put]
  split <;> rfl

/-- A key absent from the disk tier and different from the put key is still
absent after the put. -/
theorem put_lookup_disk_none {Img : Type} (fs : String → ℚ) (s : ThumbnailCache Img)
    (path : String) (img : Img) (k2 : String × ℚ)
    (hne : k2 ≠ get_cache_key path (fs path))
    (h : lookupKey k2 s.disk_cache = none) :
    lookupKey k2 (ThumbnailCache.put fs s path img).disk_cache = none := by
  rw [ThumbnailCache.put]
  split
  · exact lookupKey_none_odAssign _ _ _ _ hne h
  · exact h

/-! ## Claim C7 -/

/-- C7: for a memory tier at capacity N ≥ 1 already holding N entries, a put
of a new entry evicts exactly one entry — the front of the recency order,
i.e. the least-recently-accessed one — and appends the new entry at the
back; and a get hit promotes its entry to the most-recently-used position,
so an entry touched by an intervening get is moved behind later insertions
rather than being evicted in insertion order. -/
theorem C7_lru_eviction_and_promotion {Img : Type} (s : ThumbnailCache Img)
    (fs : String → ℚ) (path : String) (img : Img)
    (hfull : s.memory_cache.length = s.max_memory_items)
    (hpos : 1 ≤ s.max_memory_items)
    (hnew : lookupKey (get_cache_key path (fs path)) s.memory_cache = none) :
    (ThumbnailCache.put fs s path img).memory_cache
      = s.memory_cache.tail
        ++ [(get_cache_key path (fs path), (img, fs path))] ∧
    (∀ p i m, lookupKey (get_cache_key p (fs p)) s.memory_cache = some (i, m) →
      m = fs p →
      (ThumbnailCache.get fs s p).1 = some i ∧
      (ThumbnailCache.get fs s p).2.memory_cache
        = eraseKey (get_cache_key p (fs p)) s.memory_cache
          ++ [(get_cache_key p (fs p), (i, m))]) := by
  constructor
  · rw [put_memory_cache, ThumbnailCache.store_in_memory]
    rw [odAssign, hnew]
    have hfind : lookupKey (get_cache_key path (fs path))
        (s.memory_cache ++ [(get_cache_key path (fs path), (img, fs path))])
        = some (img, fs path) := by
      rw [lookupKey_append, hnew]
      simp [lookupKey]
    rw [move_to_end, hfind]
    rw [eraseKey_append, eraseKey_of_lookup_none _ _ hnew, eraseKey, if_pos rfl]
    rw [eraseKey]
    rw [List.append_nil]
    have hlen : (s.memory_cache
        ++ [(get_cache_key path (fs path), (img, fs path))]).length
        = s.max_memory_items + 1 := by
      rw [List.length_append, hfull]
      rfl
    rw [evictLoop_of_length_succ _ _ hlen]
    cases hmc : s.memory_cache with
    | nil =>
      rw [hmc] at hfull
      simp at hfull
      omega
    | cons x xs => rfl
  · intro p i m hlook hm
    rw [ThumbnailCache.get]
    simp only [hlook]
    rw [if_pos hm]
    refine ⟨rfl, ?_⟩
    simp only
    rw [move_to_end, hlook]

/-- Witness for C7: `sampleCache` is full at capacity 2; putting file c
evicts exactly the oldest entry, and the get-promotion clause is available
for its entries. -/
theorem C7_witness :
    sampleCache.memory_cache.length = sampleCache.max_memory_items ∧
    1 ≤ sampleCache.max_memory_items ∧
    lookupKey (get_cache_key "c" (fsOne "c")) sampleCache.memory_cache = none ∧
    ((ThumbnailCache.put fsOne sampleCache "c" 12).memory_cache
        = sampleCache.memory_cache.tail
          ++ [(get_cache_key "c" (fsOne "c"), (12, fsOne "c"))] ∧
      (∀ p i m,
        lookupKey (get_cache_key p (fsOne p)) sampleCache.memory_cache
          = some (i, m) →
        m = fsOne p →
        (ThumbnailCache.get fsOne sampleCache p).1 = some i ∧
        (ThumbnailCache.get fsOne sampleCache p).2.memory_cache
          = eraseKey (get_cache_key p (fsOne p)) sampleCache.memory_cache
            ++ [(get_cache_key p (fsOne p), (i, m))])) :=
  ⟨rfl, by decide, by decide,
    C7_lru_eviction_and_promotion sampleCache fsOne "c" 12 rfl (by decide)
      (by decide)⟩

/-! ## Claim C8 -/

/-- C8: after `put(path, image, size)`, if the file's modification time then
changes (the mtime `get` observes differs from the one recorded at put), the
stale entry behaves as absent: `get(path, size)` returns none, provided no
other cache entry exists for the path at the new mtime. -/
theorem C8_stale_mtime_entry_absent {Img : Type} (s : ThumbnailCache Img)
    (fs1 fs2 : String → ℚ) (path : String) (img : Img)
    (hchange : fs2 path ≠ fs1 path)
    (hmem : lookupKey (get_cache_key path (fs2 path)) s.memory_cache = none)
    (hdisk : lookupKey (get_cache_key path (fs2 path)) s.disk_cache = none) :
    (ThumbnailCache.get fs2 (ThumbnailCache.put fs1 s path img) path).1 = none := by
  have hkne : get_cache_key path (fs2 path) ≠ get_cache_key path (fs1 path) := by
    simp [get_cache_key, hchange]
  have hm2 : lookupKey (get_cache_key path (fs2 path))
      (ThumbnailCache.put fs1 s path img).memory_cache = none := by
    rw [put_memory_cache, ThumbnailCache.store_in_memory]
    exact lookupKey_none_evictLoop _ _ _
      (lookupKey_none_move_to_end _ _ _ hkne
        (lookupKey_none_odAssign _ _ _ _ hkne hmem))
  have hd2 : lookupKey (get_cache_key path (fs2 path))
      (ThumbnailCache.put fs1 s path img).disk_cache = none :=
    put_lookup_disk_none fs1 s path img _ hkne hdisk
  rw [ThumbnailCache.get]
  simp only [hm2]
  rw [ThumbnailCache.diskPhase]
  split
  · rw [hd2]
  · rfl

/-- Witness for C8: put file a at mtime 1 into the empty cache, then read it
back when its mtime is 2. -/
theorem C8_witness :
    fsTwo "a" ≠ fsOne "a" ∧
    lookupKey (get_cache_key "a" (fsTwo "a")) emptyCache.memory_cache = none ∧
    lookupKey (get_cache_key "a" (fsTwo "a")) emptyCache.disk_cache = none ∧
    (ThumbnailCache.get fsTwo (ThumbnailCache.put fsOne emptyCache "a" 7) "a").1
      = none :=
  ⟨by decide, rfl, rfl,
    C8_stale_mtime_entry_absent emptyCache fsOne fsTwo "a" 7 (by decide) rfl rfl⟩

/-! ## Claim C10 -/

/-- The memory tier after `_store_in_memory` is within capacity. -/
theorem store_in_memory_length {Img : Type} (key : String × ℚ) (img : Img)
    (mtime : ℚ) (s : ThumbnailCache Img) :
    (ThumbnailCache.store_in_memory key img mtime s).memory_cache.length
      ≤ s.max_memory_items := by
  rw [ThumbnailCache.store_in_memory]
  exact evictLoop_length_le _ _

/-- The disk phase of a get preserves the capacity and the memory bound. -/
theorem diskPhase_bound {Img : Type} (s : ThumbnailCache Img) (key : String × ℚ)
    (mtime : ℚ) (h : s.memory_cache.length ≤ s.max_memory_items) :
    (ThumbnailCache.diskPhase s key mtime).2.memory_cache.length
        ≤ (ThumbnailCache.diskPhase s key mtime).2.max_memory_items ∧
    (ThumbnailCache.diskPhase s key mtime).2.max_memory_items
      = s.max_memory_items := by
  rw [ThumbnailCache.diskPhase]
  split
  · cases hl : lookupKey key s.disk_cache with
    | some img => exact ⟨store_in_memory_length _ _ _ _, rfl⟩
    | none => exact ⟨h, rfl⟩
  · exact ⟨h, rfl⟩

/-- Each public cache operation preserves the capacity and the memory
bound. -/
theorem applyOp_bound {Img : Type} (s : ThumbnailCache Img) (op : CacheOp Img)
    (h : s.memory_cache.length ≤ s.max_memory_items) :
    (applyOp s op).memory_cache.length ≤ (applyOp s op).max_memory_items ∧
    (applyOp s op).max_memory_items = s.max_memory_items := by
  cases op with
  | put fs p img =>
    have hmax : (applyOp s (.put fs p img)).max_memory_items
        = s.max_memory_items := by
      rw [applyOp, ThumbnailCache.put]
      split <;> rfl
    refine ⟨?_, hmax⟩
    rw [hmax]
    rw [applyOp, put_memory_cache]
    exact store_in_memory_length _ _ _ _
  | get fs p =>
    rw [applyOp, ThumbnailCache.get]
    cases hl : lookupKey (get_cache_key p (fs p)) s.memory_cache with
    | some iv =>
      simp only
      by_cases hv : iv.2 = fs p
      · rw [if_pos hv]
        refine ⟨?_, rfl⟩
        calc (move_to_end (get_cache_key p (fs p)) s.memory_cache).length
            ≤ s.memory_cache.length := move_to_end_length_le _ _
          _ ≤ s.max_memory_items := h
      · rw [if_neg hv]
        exact diskPhase_bound _ _ _
          (Nat.le_trans (eraseKey_length_le _ _) h)
    | none =>
      simp only
      exact diskPhase_bound _ _ _ h

/-- C10: starting from any state within its capacity (the fresh cache
included), every sequence of get and put operations leaves the memory tier
holding at most `max_memory_items` entries — every insertion path evicts
down to the bound — and the capacity itself never changes. -/
theorem C10_memory_bound_invariant {Img : Type} (s : ThumbnailCache Img)
    (ops : List (CacheOp Img))
    (hinv : s.memory_cache.length ≤ s.max_memory_items) :
    (applyOps s ops).memory_cache.length ≤ (applyOps s ops).max_memory_items ∧
    (applyOps s ops).max_memory_items = s.max_memory_items := by
  induction ops generalizing s with
  | nil => exact ⟨hinv, rfl⟩
  | cons op rest ih =>
    rw [applyOps, List.foldl_cons]
    obtain ⟨h1, h2⟩ := applyOp_bound s op hinv
    have := ih (applyOp s op) (by rw [h2]; exact h2 ▸ h1)
    rw [applyOps] at this
    exact ⟨this.1, by rw [this.2, h2]⟩

/-- Witness for C10: three operations on the empty capacity-1 cache. -/
theorem C10_witness :
    tinyCache.memory_cache.length ≤ tinyCache.max_memory_items ∧
    ((applyOps tinyCache demoOps).memory_cache.length
        ≤ (applyOps tinyCache demoOps).max_memory_items ∧
      (applyOps tinyCache demoOps).max_memory_items
        = tinyCache.max_memory_items) :=
  ⟨by decide, C10_memory_bound_invariant tinyCache demoOps (by decide)⟩

/-! ## Claim C9 -/

/-- A file already marked queued stays queued through the assignment loop. -/
theorem setQueued_preserved (files : List String) (g : String → String)
    (fp : String) (h : g fp = "queued") : setQueued g files fp = "queued" := by
  induction files generalizing g with
  | nil => exact h
  | cons x xs ih =>
    rw [setQueued, List.foldl_cons]
    exact ih _ (by by_cases hx : fp = x <;> simp [hx, h])

/-- Every selected file is queued by the assignment loop. -/
theorem setQueued_of_mem (files : List String) (g : String → String)
    (fp : String) (h : fp ∈ files) : setQueued g files fp = "queued" := by
  induction files generalizing g with
  | nil => cases h
  | cons x xs ih =>
    rw [setQueued, List.foldl_cons]
    rcases List.mem_cons.mp h with h1 | h2
    · exact setQueued_preserved xs _ fp (by simp [h1])
    · exact ih _ h2

/-- C9: `start_upload` returns False for an empty pending-by-group map and
changes no state; for every non-empty input it returns True, resets the
completed count to 0, sets the total to the number of selected files, opens
an upload-history session, sets each selected file's state to queued, and
emits the batch-started callback exactly once. -/
theorem C9_start_upload_contract (s : UploadCoordinator)
    (pending : List (String × List String)) (sid : String) :
    (pending = [] → start_upload s pending sid = (false, s)) ∧
    (pending ≠ [] →
      (start_upload s pending sid).1 = true ∧
      (start_upload s pending sid).2.upload_count = 0 ∧
      (start_upload s pending sid).2.upload_total
        = (pending.map (fun g => g.2.length)).sum ∧
      (start_upload s pending sid).2.current_session_id = some sid ∧
      (start_upload s pending sid).2.history_open = true ∧
      (∀ fp ∈ (pending.map Prod.snd).flatten,
        (start_upload s pending sid).2.file_states fp = "queued") ∧
      (start_upload s pending sid).2.start_events = s.start_events + 1) := by
  constructor
  · intro h
    rw [start_upload, if_pos h]
  · intro h
    rw [start_upload, if_neg h]
    refine ⟨rfl, rfl, rfl, rfl, rfl, ?_, rfl⟩
    intro fp hfp
    exact setQueued_of_mem _ _ _ hfp

/-- Witness for C9: the empty map fails with no state change, and a one-group
two-file batch starts with every contract clause holding. -/
theorem C9_witness :
    start_upload coordInit [] "20240101_000000" = (false, coordInit) ∧
    ((start_upload coordInit [("g", ["a", "b"])] "20240101_000000").1 = true ∧
      (start_upload coordInit [("g", ["a", "b"])] "20240101_000000").2.upload_count
        = 0 ∧
      (start_upload coordInit [("g", ["a", "b"])] "20240101_000000").2.upload_total
        = ([("g", ["a", "b"])].map (fun g => g.2.length)).sum ∧
      (start_upload coordInit [("g", ["a", "b"])]
          "20240101_000000").2.current_session_id = some "20240101_000000" ∧
      (start_upload coordInit [("g", ["a", "b"])] "20240101_000000").2.history_open
        = true ∧
      (∀ fp ∈ ([("g", ["a", "b"])].map Prod.snd).flatten,
        (start_upload coordInit [("g", ["a", "b"])]
            "20240101_000000").2.file_states fp = "queued") ∧
      (start_upload coordInit [("g", ["a", "b"])] "20240101_000000").2.start_events
        = coordInit.start_events + 1) :=
  ⟨(C9_start_upload_contract coordInit [] "20240101_000000").1 rfl,
    (C9_start_upload_contract coordInit [("g", ["a", "b"])] "20240101_000000").2
      (by decide)⟩

end UploadEngine
